import Mathlib

/-
  Verification of the Embarcatech_37 captive-portal network stack.

  Shallow embedding of:
  * `libs/dhcpserver/dhcpserver.c` (DHCP server: slot scans, lease table,
    option emission, reply-destination selection),
  * `libs/dnsserver/dnsserver.c` (catch-all DNS responder),
  * `src/network_manager.c` (HTTP request parsing, page rendering,
    alarm command interpretation),
  * `src/alarm_control.c` (alarm state and its hardware side effects),
  * `src/Atividade_08.c` (serial shutdown key handling).

  The target is the RP2040 (little-endian Cortex-M0+); wherever the C code's
  behaviour depends on byte order (lwIP `ip4_addr_get_u32`, `PP_HTONS`,
  `lwip_htonl`, struct loads of wire data), the little-endian semantics of
  that target is embedded explicitly.  Machine integers are modelled as
  `Nat` with explicit reductions mod 2^16 / 2^32 where C overflow or
  narrowing matters.
-/

namespace Embarcatech

/-! ## Little-endian target primitives -/

/-- `PP_HTONS` on the little-endian target: byte swap of a 16-bit value. -/
def ppHtons (x : Nat) : Nat := (x % 256) * 256 + (x / 256) % 256

/-- `lwip_htonl` on the little-endian target: byte swap of a 32-bit value. -/
def lwipHtonl (x : Nat) : Nat :=
  (x % 256) * 16777216 + (x / 256 % 256) * 65536 + (x / 65536 % 256) * 256 + (x / 16777216 % 256)

/-- `ip4_addr_get_u32`: the `u32` obtained by a little-endian load of the four
network-order address bytes held in an lwIP `ip4_addr_t`. -/
def le32 (l : List Nat) : Nat :=
  l.getD 0 0 + 256 * l.getD 1 0 + 65536 * l.getD 2 0 + 16777216 * l.getD 3 0

/-- The four memory bytes of a `u32` on the little-endian target
(what a `memcpy` of the value sees). -/
def leBytes (x : Nat) : List Nat := [x % 256, x / 256 % 256, x / 65536 % 256, x / 16777216 % 256]

/-- Big-endian assembly of four bytes into a `u32`, mirroring
`(a << 24) | (b << 16) | (c << 8) | d` in the C code. -/
def be32 (l : List Nat) : Nat :=
  (l.getD 0 0 <<< 24) ||| (l.getD 1 0 <<< 16) ||| (l.getD 2 0 <<< 8) ||| l.getD 3 0

/-- Truncation of a `Nat` to the value of a C `uint32_t`. -/
def u32of (x : Nat) : Nat := x % 4294967296

/-- Reading a `uint32_t` difference `a - b` (C unsigned wraparound). -/
def u32sub (a b : Nat) : Nat := (a % 4294967296 + 4294967296 - b % 4294967296) % 4294967296

/-- Reinterpreting the low 16 bits of a C unsigned value as `int16_t`
(two's complement, as on the target). -/
def toInt16 (x : Nat) : Int :=
  if x % 65536 < 32768 then ((x % 65536 : Nat) : Int) else ((x % 65536 : Nat) : Int) - 65536

/-- Reinterpreting a C `uint32_t` value as `int32_t`
(two's complement, as on the target). -/
def toInt32 (x : Nat) : Int :=
  if x % 4294967296 < 2147483648 then ((x % 4294967296 : Nat) : Int)
  else ((x % 4294967296 : Nat) : Int) - 4294967296

/-! ## DHCP server data model (`dhcpserver.h` / `dhcpserver.c`) -/

/-- `dhcp_server_lease_t`: one slot of the lease table.  `mac` is the 6-byte
hardware address (all-zero means free), `expiry` the `uint16_t` coarse
timestamp (`ticks_ms >> 16`). -/
structure dhcp_server_lease_t where
  mac : List Nat
  expiry : Nat
deriving DecidableEq, Repr

/-- The all-zero MAC marking a free slot (`memset(mac, 0, MAC_LEN)`). -/
def zeroMac : List Nat := List.replicate 6 0

instance : Inhabited dhcp_server_lease_t := ⟨⟨zeroMac, 0⟩⟩

/-- `dhcp_server_t`: server state.  `ip` and `nm` are the four network-order
address bytes of the lwIP `ip_addr_t` fields; `lease` is the
`DHCPS_MAX_IP = 8` entry lease table. -/
structure dhcp_server_t where
  ip : List Nat
  nm : List Nat
  lease : List dhcp_server_lease_t
deriving DecidableEq, Repr

/-- `dhcp_msg_t` as filled by `pbuf_copy_partial`: the RFC 2131 fixed part
plus the 312-byte options area (starting with the magic cookie).  The 16-bit
`flags` field is kept as its two wire bytes `flagsB0 flagsB1`;
`sname`/`file` are never read by the server and are omitted. -/
structure dhcp_msg_t where
  op : Nat
  htype : Nat
  hlen : Nat
  hops : Nat
  xid : List Nat
  secs : List Nat
  flagsB0 : Nat
  flagsB1 : Nat
  ciaddr : List Nat
  yiaddr : List Nat
  siaddr : List Nat
  giaddr : List Nat
  chaddr : List Nat
  options : List Nat
deriving DecidableEq, Repr

/-- The value of the C `uint16_t flags` field after the little-endian
struct copy of the two wire bytes. -/
def dhcp_msg_t.flagsVal (m : dhcp_msg_t) : Nat := m.flagsB0 + 256 * m.flagsB1

/-- `(dhcp_msg.flags & PP_HTONS(0x8000)) != 0`: the BROADCAST flag test of
`dhcp_server_process`. -/
def dhcp_msg_t.broadcastFlag (m : dhcp_msg_t) : Bool :=
  (m.flagsVal &&& ppHtons 32768) != 0

/-- `(ciaddr[0] | ciaddr[1] | ciaddr[2] | ciaddr[3]) == 0`. -/
def dhcp_msg_t.ciaddrIsZero (m : dhcp_msg_t) : Bool :=
  (m.ciaddr.getD 0 0 ||| m.ciaddr.getD 1 0 ||| m.ciaddr.getD 2 0 ||| m.ciaddr.getD 3 0) == 0

/-- The 6 bytes of `chaddr` that `memcmp(..., MAC_LEN)` inspects. -/
def dhcp_msg_t.clientMac (m : dhcp_msg_t) : List Nat := m.chaddr.take 6

/-- The `mac_is_null` loop of the DISCOVER scan
(`for k < 6: if mac[k] != 0 -> not null`). -/
def macIsNull (mac : List Nat) : Bool := mac.all (fun b => b == 0)

/-- DISCOVER-scan expiry test:
`(int16_t)(current_time_marker - lease[i].expiry) > 0 && lease[i].expiry != 0`. -/
def leaseExpiredDiscover (now16 : Nat) (l : dhcp_server_lease_t) : Bool :=
  decide (0 < toInt16 (u32sub now16 l.expiry)) && (l.expiry != 0)

/-- REQUEST-scan expiry test:
`(int32_t)(((expiry << 16) | 0xFFFF) - cyw43_hal_ticks_ms()) < 0`. -/
def leaseExpiredRequest (nowMs : Nat) (l : dhcp_server_lease_t) : Bool :=
  decide (toInt32 (u32sub ((l.expiry <<< 16) ||| 65535) nowMs) < 0)

/-! ## DHCP option scanning and writing -/

/-- The scan step of `opt_find`, with the loop bound `i < 312 - 4` of the C
code made explicit; `fuel` only bounds the recursion and is started at 308,
which the loop bound makes equivalent to the unbounded loop. -/
def optFindFrom (opt : List Nat) (cmd : Nat) : Nat → Nat → Option Nat
  | 0, _ => none
  | fuel + 1, i =>
    if i < 308 then
      if opt.getD i 0 = 255 then none
      else if opt.getD i 0 = cmd then some i
      else if opt.getD i 0 = 0 then optFindFrom opt cmd fuel (i + 1)
      else optFindFrom opt cmd fuel (i + 2 + opt.getD (i + 1) 0)
    else none

/-- `opt_find` over the option area that follows the magic cookie. -/
def opt_find (opt : List Nat) (cmd : Nat) : Option Nat := optFindFrom opt cmd 308 0

/-- Locating option 53 and checking `msg_type_opt[1] == 1`, returning the
message type byte `msg_type_opt[2]`. -/
def extractMsgType (optArea : List Nat) : Option Nat :=
  match opt_find optArea 53 with
  | none => none
  | some i => if optArea.getD (i + 1) 0 = 1 then some (optArea.getD (i + 2) 0) else none

/-- `opt_write_u8`. -/
def opt_write_u8 (cmd val : Nat) : List Nat := [cmd, 1, val]

/-- `opt_write_u32`: tag, length 4, then the value in big-endian byte order
(as the C function writes it). -/
def opt_write_u32 (cmd val : Nat) : List Nat :=
  [cmd, 4, val / 16777216 % 256, val / 65536 % 256, val / 256 % 256, val % 256]

/-- `opt_write_n` with `n = 4` and a pointer to a `uint32_t`: tag, length 4,
then the four memory bytes of the value. -/
def opt_write_n4 (cmd : Nat) (bytes : List Nat) : List Nat := cmd :: 4 :: bytes

/-- The option list `dhcp_server_process` emits after the switch: message
type, then Server-ID (54), Subnet mask (1), Router (3), DNS (6),
Lease time (51), END.  Server-ID goes through `opt_write_u32` applied to the
raw `ip4_addr_get_u32` value; the mask/router/DNS go through `opt_write_n`
(a `memcpy`); the lease time goes through `opt_write_u32` applied to
`lwip_htonl(86400)`. -/
def mkReplyOptions (d : dhcp_server_t) (mt : Nat) : List Nat :=
  opt_write_u8 53 mt
    ++ opt_write_u32 54 (le32 d.ip)
    ++ opt_write_n4 1 (leBytes (le32 d.nm))
    ++ opt_write_n4 3 (leBytes (le32 d.ip))
    ++ opt_write_n4 6 (leBytes (le32 d.ip))
    ++ opt_write_u32 51 (lwipHtonl 86400)
    ++ [255]

/-! ## DHCP slot scans -/

/-- The DISCOVER slot scan (one pass, mutating the table in place):
a slot whose MAC equals `chaddr` ends the loop; a null-MAC slot becomes the
first-free candidate; an expired slot is cleared and becomes a candidate.
Returns (index of MAC match, first free-for-reuse index, mutated table). -/
def discoverScan (chaddr : List Nat) (now16 : Nat) :
    List dhcp_server_lease_t → Option Nat × Option Nat × List dhcp_server_lease_t
  | [] => (none, none, [])
  | l :: rest =>
    if l.mac = chaddr then
      (some 0, none, l :: rest)
    else if macIsNull l.mac then
      let r := discoverScan chaddr now16 rest
      (r.1.map (· + 1), some 0, l :: r.2.2)
    else if leaseExpiredDiscover now16 l then
      let r := discoverScan chaddr now16 rest
      (r.1.map (· + 1), some 0, ⟨zeroMac, 0⟩ :: r.2.2)
    else
      let r := discoverScan chaddr now16 rest
      (r.1.map (· + 1), r.2.1.map (· + 1), l :: r.2.2)

/-- REQUEST scan 1: first slot whose MAC equals the client `chaddr`. -/
def requestFindMac (chaddr : List Nat) : List dhcp_server_lease_t → Option Nat
  | [] => none
  | l :: rest =>
    if l.mac = chaddr then some 0 else (requestFindMac chaddr rest).map (· + 1)

/-- REQUEST scan 2: first slot with `memcmp(mac, "\0\0\0\0\0\0", 6) == 0` or
an expired lease; the client MAC is written into it immediately. -/
def requestClaimFree (chaddr : List Nat) (nowMs : Nat) :
    List dhcp_server_lease_t → Option (Nat × List dhcp_server_lease_t)
  | [] => none
  | l :: rest =>
    if l.mac = zeroMac ∨ leaseExpiredRequest nowMs l then
      some (0, { l with mac := chaddr } :: rest)
    else
      (requestClaimFree chaddr nowMs rest).map (fun p => (p.1 + 1, l :: p.2))

/-- `d->lease[yi].expiry = e` (out-of-range index leaves the table unchanged;
the C code only uses indices below the table size). -/
def setExpiry : List dhcp_server_lease_t → Nat → Nat → List dhcp_server_lease_t
  | [], _, _ => []
  | l :: rest, 0, e => { l with expiry := e } :: rest
  | l :: rest, k + 1, e => l :: setExpiry rest k e

/-! ## DHCP reply synthesis and the main process function -/

/-- The observable content of one reply datagram: message type, the
`yiaddr`/`siaddr` fields written into the echoed message, the option bytes
written from `options[4]` on, and the UDP destination chosen for
`dhcp_socket_sendto`. -/
structure DhcpReply where
  msgType : Nat
  yiaddr : List Nat
  siaddr : List Nat
  options : List Nat
  destIp : Nat
  destPort : Nat
deriving DecidableEq, Repr

/-- Building the reply for slot `yi`: `yiaddr` is the server IP with its last
octet replaced by `DHCPS_BASE_IP + yi`; `mtOut` (OFFER = 2 / ACK = 5) is the
type written into the Message-Type option.  The destination defaults to
broadcast `0xFFFFFFFF`; the dedicated unicast branch of the C code is
guarded by `extracted_msg_type == DHCPACK`, but `extracted_msg_type`
(`mtExtracted` here) holds the INBOUND message type — 1 or 3 on every path
that reaches the send, since an inbound 5 falls into the switch default and
is dropped — so the guard never holds and every reply, ACK included, is
broadcast.  The port is always `PORT_DHCP_CLIENT = 68`. -/
def mkReply (d : dhcp_server_t) (m : dhcp_msg_t) (mtExtracted mtOut : Nat) (yi : Nat) :
    DhcpReply :=
  let yia := [d.ip.getD 0 0, d.ip.getD 1 0, d.ip.getD 2 0, (16 + yi) % 256]
  { msgType := mtOut
    yiaddr := yia
    siaddr := d.ip.take 4
    options := mkReplyOptions d mtOut
    destIp := if mtExtracted = 5 ∧ m.broadcastFlag = false ∧ m.ciaddrIsZero = true
              then be32 yia else 4294967295
    destPort := 68 }

/-- `dhcp_server_process`.  `nowMs` stands for `cyw43_hal_ticks_ms()`
(read as a single coherent value during the call), `totLen` for
`p->tot_len`, `m` for the struct contents after `pbuf_copy_partial`.
Returns the updated server state and the reply sent, if any. -/
def dhcp_server_process (d : dhcp_server_t) (nowMs totLen : Nat) (m : dhcp_msg_t) :
    dhcp_server_t × Option DhcpReply :=
  if totLen < 240 then (d, none)
  else if m.options.take 4 ≠ [99, 130, 83, 99] then (d, none)
  else
    match extractMsgType (m.options.drop 4) with
    | none => (d, none)
    | some mt =>
      if mt = 1 then
        let now16 := u32of nowMs / 65536
        let r := discoverScan m.clientMac now16 d.lease
        let d' : dhcp_server_t := { d with lease := r.2.2 }
        match r.1 with
        | some yi => (d', some (mkReply d m mt 2 yi))
        | none =>
          match r.2.1 with
          | some yi => (d', some (mkReply d m mt 2 yi))
          | none => (d', none)
      else if mt = 3 then
        match requestFindMac m.clientMac d.lease with
        | some yi =>
          ({ d with lease := setExpiry d.lease yi (u32of (u32of nowMs + 86400000) / 65536) },
            some (mkReply d m mt 5 yi))
        | none =>
          match requestClaimFree m.clientMac nowMs d.lease with
          | some p =>
            ({ d with lease := setExpiry p.2 p.1 (u32of (u32of nowMs + 86400000) / 65536) },
              some (mkReply d m mt 5 p.1))
          | none => (d, none)
      else (d, none)

/-- `dhcp_server_init`: the lease table is zeroed (`memset`). -/
def dhcp_server_init (ip nm : List Nat) : dhcp_server_t :=
  { ip := ip, nm := nm, lease := List.replicate 8 ⟨zeroMac, 0⟩ }

/-- Folding `dhcp_server_process` over a sequence of
(tick value, total length, message) datagrams. -/
def dhcpProcessSeq (d : dhcp_server_t) : List (Nat × Nat × dhcp_msg_t) → dhcp_server_t
  | [] => d
  | (nowMs, totLen, m) :: rest => dhcpProcessSeq (dhcp_server_process d nowMs totLen m).1 rest

/-! ## DNS server (`dnsserver.c`) -/

/-- The question-name walk of `dns_server_process`: starting at `ptr`, read
length-prefixed labels until a zero byte (consume it and stop), dropping the
datagram on a label longer than 63; the C loop also simply stops when `ptr`
reaches the end of the message.  `fuel` only bounds the recursion; each pass
advances `ptr` by at least one, so `fuel = msg.length` makes it equivalent
to the C `while` loop. -/
def walkName (msg : List Nat) : Nat → Nat → Option Nat
  | 0, ptr => some ptr
  | fuel + 1, ptr =>
    if ptr < msg.length then
      if msg.getD ptr 0 = 0 then some (ptr + 1)
      else if msg.getD ptr 0 > 63 then none
      else walkName msg fuel (ptr + 1 + msg.getD ptr 0)
    else some ptr

/-- `dns_server_process`.  `serverIp` is the four network-order bytes of
`d->ip.addr`; `srcIp`/`srcPort` identify the query's source, to which any
response is sent.  The local message buffer is `MAX_DNS_MSG_SIZE = 300`
bytes, so the inbound datagram is truncated to 300 bytes.  Returns the
response bytes and their UDP destination, or `none` for a silent drop. -/
def dns_server_process (serverIp srcIp : List Nat) (srcPort : Nat)
    (datagram : List Nat) : Option (List Nat × List Nat × Nat) :=
  let msg := datagram.take 300
  if msg.length < 12 then none
  else
    let flags := 256 * msg.getD 2 0 + msg.getD 3 0
    let questionCount := 256 * msg.getD 4 0 + msg.getD 5 0
    if (flags >>> 15) &&& 1 ≠ 0 then none
    else if (flags >>> 11) &&& 15 ≠ 0 then none
    else if questionCount < 1 then none
    else
      match walkName msg msg.length 12 with
      | none => none
      | some ptr =>
        if ptr - 12 > 255 then none
        else
          let ansStart := ptr + 4
          let hdr := msg.take 2 ++ [132, 128, 0, 1, 0, 1, 0, 0, 0, 0] ++ msg.drop 12
          some (hdr.take ansStart ++ [192, 12, 0, 1, 0, 1, 0, 0, 0, 60, 0, 4]
              ++ serverIp.take 4, srcIp, srcPort)

/-- Wire encoding of a DNS name from its labels:
each label prefixed by its length, terminated by a zero byte. -/
def nameBytes : List (List Nat) → List Nat
  | [] => [0]
  | lab :: rest => lab.length :: (lab ++ nameBytes rest)

/-! ## Alarm control (`alarm_control.c`) -/

/-- GPIO pin assignments from `app_config.h`. -/
def LED_GREEN_GPIO : Nat := 11

/-- GPIO pin of the blue (AP status) LED. -/
def LED_BLUE_GPIO : Nat := 12

/-- GPIO pin of the red (alarm) LED. -/
def LED_RED_GPIO : Nat := 13

/-- GPIO pin of the buzzer. -/
def BUZZER_GPIO : Nat := 10

/-- The module-static state of `alarm_control.c`. -/
structure AlarmState where
  s_alarm_active : Bool
  s_alarm_output_toggle_state : Bool
  s_last_toggle_time_us : Nat
deriving DecidableEq, Repr

/-- Externally observable hardware writes issued by the alarm module. -/
inductive HwEffect where
  | oled_display_update_status (active : Bool)
  | gpio_put (pin : Nat) (value : Bool)
deriving DecidableEq, Repr

/-- `alarm_control_set_active`: acts only when the requested state differs
from the current one; on activation it updates the OLED, switches the green
LED off and resets the blink timer; on deactivation it updates the OLED and
drives red LED and buzzer low and the green LED high. -/
def alarm_control_set_active (active : Bool) (nowUs : Nat) (s : AlarmState) :
    AlarmState × List HwEffect :=
  if s.s_alarm_active ≠ active then
    if active then
      (⟨true, false, nowUs⟩,
        [HwEffect.oled_display_update_status true, HwEffect.gpio_put LED_GREEN_GPIO false])
    else
      (⟨false, false, s.s_last_toggle_time_us⟩,
        [HwEffect.oled_display_update_status false, HwEffect.gpio_put LED_RED_GPIO false,
          HwEffect.gpio_put BUZZER_GPIO false, HwEffect.gpio_put LED_GREEN_GPIO true])
  else (s, [])

/-! ## HTTP server and page renderer (`network_manager.c`) -/

/-- The `isspace` class used by `sscanf` on the target C library. -/
def cIsSpace (c : Char) : Bool :=
  c = ' ' || c = '\t' || c = '\n' || c = '\x0b' || c = '\x0c' || c = '\r'

/-- `sscanf(params, "alarm=%s", buf)`: the literal `alarm=` must match at the
start of the string; `%s` then skips whitespace and reads the maximal run of
non-whitespace characters, failing if that run is empty.  (The C destination
buffer holds 4 bytes, so only tokens of up to 3 characters stay within
defined behaviour.) -/
def sscanfAlarmToken (ps : List Char) : Option (List Char) :=
  if ps.take 6 = "alarm=".data then
    let tok := ((ps.drop 6).dropWhile (fun c => cIsSpace c)).takeWhile (fun c => !cIsSpace c)
    if tok = [] then none else some tok
  else none

/-- `ALARM_PAGE_BODY` up to the first `%s` (literal braces written as their
escapes). -/
def pageTpl0 : List Char :=
  ("<html><head><title>Controle de Alarme</title><meta name=\"viewport\" content=\"width=device-width, initial-scale=1.0\"></head><body><style>body\x7bfont-family: Arial, sans-serif; text-align: center; margin-top: 50px;\x7d h1\x7bcolor: #333;\x7d h2\x7bcolor: #444; font-size: 1.2em; margin-top: 0px;\x7d p\x7bcolor: #555;\x7d .button \x7bdisplay: inline-block; padding: 15px 25px; font-size: 20px; cursor: pointer; text-align: center; text-decoration: none; outline: none; color: #fff; border: none; border-radius: 15px; box-shadow: 0 9px #999;\x7d .button-on \x7bbackground-color: #4CAF50;\x7d .button-on:hover \x7bbackground-color: #3e8e41\x7d .button-off \x7bbackground-color: #f44336;\x7d .button-off:hover \x7bbackground-color: #da190b\x7d .status \x7bfont-weight: bold; font-size: 22px;\x7d .status-on \x7bcolor: #f44336;\x7d .status-off \x7bcolor: #4CAF50;\x7d</style><h1>Simulador Portatil de Alarme</h1><h2>Atividade 08 - Manoel</h2><p>Estado do Alarme: <strong class=\"status status-").data

/-- `ALARM_PAGE_BODY`, between the first and second `%s`. -/
def pageTpl1 : List Char := ("\">").data

/-- `ALARM_PAGE_BODY`, between the second and third `%s`. -/
def pageTpl2 : List Char := ("</strong></p><p><a href=\"/?alarm=").data

/-- `ALARM_PAGE_BODY`, between the third and fourth `%s`. -/
def pageTpl3 : List Char := ("\" class=\"button button-").data

/-- `ALARM_PAGE_BODY`, between the fourth and fifth `%s`. -/
def pageTpl4 : List Char := ("\">").data

/-- `ALARM_PAGE_BODY` after the fifth `%s`. -/
def pageTpl5 : List Char := (" Alarme</a></p></body></html>").data

/-- The rendered page: `snprintf` substitution of the five state-dependent
strings into `ALARM_PAGE_BODY`. -/
def pageBody (active : Bool) : List Char :=
  pageTpl0 ++ (if active then "on".data else "off".data)
    ++ pageTpl1 ++ (if active then "LIGADO".data else "DESLIGADO".data)
    ++ pageTpl2 ++ (if active then "off".data else "on".data)
    ++ pageTpl3 ++ (if active then "off".data else "on".data)
    ++ pageTpl4 ++ (if active then "Desligar".data else "Ligar".data)
    ++ pageTpl5

/-- `http_generate_page_content`: interpret the query command (if any), then
render the page from the resulting alarm state.  Returns the new alarm
state, the body bytes, and the hardware effects of the command. -/
def http_generate_page_content (params : Option (List Char)) (nowUs : Nat) (s0 : AlarmState) :
    AlarmState × List Char × List HwEffect :=
  let cmd :=
    match params with
    | none => (s0, ([] : List HwEffect))
    | some ps =>
      match sscanfAlarmToken ps with
      | none => (s0, [])
      | some tok =>
        if tok = "on".data then
          if !s0.s_alarm_active then alarm_control_set_active true nowUs s0 else (s0, [])
        else if tok = "off".data then
          if s0.s_alarm_active then alarm_control_set_active false nowUs s0 else (s0, [])
        else (s0, [])
  (cmd.1, pageBody cmd.1.s_alarm_active, cmd.2)

/-- Decimal rendering of a nonnegative `%d` argument. -/
def natToDec (n : Nat) : List Char := (Nat.repr n).data

/-- `HTTP_RESPONSE_HEADERS` with its two `%d` arguments substituted. -/
def HTTP_RESPONSE_HEADERS (status contentLen : Nat) : List Char :=
  "HTTP/1.1 ".data ++ natToDec status ++ " OK\nContent-Length: ".data ++ natToDec contentLen
    ++ "\nContent-Type: text/html; charset=utf-8\nConnection: close\n\n".data

/-- `HTTP_RESPONSE_REDIRECT_TO_ROOT` with the gateway address substituted. -/
def HTTP_RESPONSE_REDIRECT_TO_ROOT (gwStr : List Char) : List Char :=
  "HTTP/1.1 302 Redirect\nLocation: http://".data ++ gwStr ++ "/\n\n".data

/-- The request-line parsing of `tcp_server_recv`: keep at most 127 bytes,
require the `GET` method token, skip spaces, cut the target at the first
space, and split it at the first `?` into path and query. -/
def parseRequest (reqBytes : List Char) : Option (List Char × Option (List Char)) :=
  let hdr := reqBytes.take 127
  if hdr.take 3 = "GET".data then
    let afterGet := (hdr.drop 3).dropWhile (fun c => c = ' ')
    let target := afterGet.takeWhile (fun c => c ≠ ' ')
    let path := target.takeWhile (fun c => c ≠ '?')
    let rest := target.dropWhile (fun c => c ≠ '?')
    some (path, if rest = [] then none else some (rest.drop 1))
  else none

/-- Outcome of one `tcp_server_recv` invocation. -/
inductive RecvOutcome where
  | noResponse
  | errorClosed
  | reply (headers body : List Char)
deriving DecidableEq, Repr

/-- `tcp_server_recv` on a fresh request: non-GET data produces no response;
`GET /` renders the page (closing with an error if the body would reach the
1500-byte buffer bound); any other path produces the 302 redirect with an
empty body; an over-long header line (128-byte bound) closes with an error.
Returns the new alarm state, the hardware effects, and the outcome. -/
def tcp_server_recv (gwStr : List Char) (nowUs : Nat) (s0 : AlarmState)
    (reqBytes : List Char) : AlarmState × List HwEffect × RecvOutcome :=
  match parseRequest reqBytes with
  | none => (s0, [], RecvOutcome.noResponse)
  | some pr =>
    if pr.1 = "/".data then
      let g := http_generate_page_content pr.2 nowUs s0
      if 1499 ≤ g.2.1.length then (g.1, g.2.2, RecvOutcome.errorClosed)
      else
        let hdrs := HTTP_RESPONSE_HEADERS 200 g.2.1.length
        if 127 ≤ hdrs.length then (g.1, g.2.2, RecvOutcome.errorClosed)
        else (g.1, g.2.2, RecvOutcome.reply hdrs g.2.1)
    else
      let hdrs := HTTP_RESPONSE_REDIRECT_TO_ROOT gwStr
      if 127 ≤ hdrs.length then (s0, [], RecvOutcome.errorClosed)
      else (s0, [], RecvOutcome.reply hdrs [])

/-- `tcp_server_sent`: the connection closes exactly when the cumulative
acknowledged byte count reaches `header_len + result_len`. -/
def tcp_server_sent_closes (headerLen resultLen sentAck : Nat) : Bool :=
  headerLen + resultLen ≤ sentAck

/-! ## Supervisor console input (`Atividade_08.c`) -/

/-- `key_pressed_func`: the new value of `state->complete` after reading
`key` from the serial console (`'d' = 100`, `'D' = 68`). -/
def key_pressed_func (key : Int) (complete : Bool) : Bool :=
  if (key = 100 ∨ key = 68) ∧ complete = false then true else complete

/-! ## Concrete test fixtures -/

/-- The gateway/server address 192.168.4.1 set up by `network_manager_init`. -/
def gwIpBytes : List Nat := [192, 168, 4, 1]

/-- The netmask 255.255.255.0 set up by `network_manager_init`. -/
def netmaskBytes : List Nat := [255, 255, 255, 0]

/-- A minimal well-formed DHCP message of type `mt` from MAC `mac6`,
with flags first byte `fB0` and `ciaddr` `ci`. -/
def mkTestDhcpMsg (mt : Nat) (mac6 : List Nat) (fB0 : Nat) (ci : List Nat) : dhcp_msg_t :=
  { op := 1, htype := 1, hlen := 6, hops := 0, xid := [222, 173, 190, 239], secs := [0, 0],
    flagsB0 := fB0, flagsB1 := 0, ciaddr := ci, yiaddr := [0, 0, 0, 0],
    siaddr := [0, 0, 0, 0], giaddr := [0, 0, 0, 0],
    chaddr := mac6 ++ List.replicate 10 0,
    options := [99, 130, 83, 99, 53, 1, mt, 255] }

/-- A fresh DHCP server as configured by `network_manager_init`. -/
def testSrv : dhcp_server_t := dhcp_server_init gwIpBytes netmaskBytes

/-- The lease-uniqueness relation between two slots: they may only collide
on the MAC when one of them is free. -/
def dhcpLeaseRel (a b : dhcp_server_lease_t) : Prop :=
  macIsNull a.mac = true ∨ macIsNull b.mac = true ∨ a.mac ≠ b.mac

instance (a b : dhcp_server_lease_t) : Decidable (dhcpLeaseRel a b) := by
  unfold dhcpLeaseRel; infer_instance

/-- Substring occurrence test (used to state the spec's
"contains the substring" reading of the query interpreter). -/
def hasSubstring (needle : List Char) : List Char → Bool
  | [] => needle == []
  | c :: rest => needle.isPrefixOf (c :: rest) || hasSubstring needle rest

/-! # Theorems -/

/-- C1: refuted — the ACK is never sent unicast.  The reply-destination
code compares `extracted_msg_type` with DHCPACK (5), but
`extracted_msg_type` is the INBOUND message type — 1 (DISCOVER) or 3
(REQUEST) on every path that reaches the send, an inbound 5 being dropped
by the switch default — so the unicast branch is dead and every reply the
server emits, including ACKs with the BROADCAST flag clear and a zero
`ciaddr`, goes to 255.255.255.255 on port 68. -/
theorem dhcp_reply_always_broadcast (d : dhcp_server_t) (nowMs totLen : Nat) (m : dhcp_msg_t)
    (r : DhcpReply) (h : (dhcp_server_process d nowMs totLen m).2 = some r) :
    r.destIp = 4294967295 ∧ r.destPort = 68 := by
  unfold dhcp_server_process at h
  split at h
  · simp at h
  split at h
  · simp at h
  split at h
  · simp at h
  next mt hmt =>
  split at h
  · -- DISCOVER branch: the inbound type is 1, never 5
    rename_i h1
    dsimp only at h
    split at h
    · simp only [Option.some.injEq] at h
      subst h
      exact ⟨by simp [mkReply, h1], rfl⟩
    · split at h
      · simp only [Option.some.injEq] at h
        subst h
        exact ⟨by simp [mkReply, h1], rfl⟩
      · simp at h
  split at h
  · -- REQUEST branch: the inbound type is 3, never 5
    rename_i h1 h3
    split at h
    · simp only [Option.some.injEq] at h
      subst h
      exact ⟨by simp [mkReply, h3], rfl⟩
    · split at h
      · simp only [Option.some.injEq] at h
        subst h
        exact ⟨by simp [mkReply, h3], rfl⟩
      · simp at h
  · simp at h

/-- C1 witness: the S1-style REQUEST (BROADCAST flag clear, zero `ciaddr`)
from MAC `02:00:00:00:00:01` — exactly the case the claim requires to be
unicast to 192.168.4.16:68 — is answered to the broadcast address. -/
theorem dhcp_reply_always_broadcast_witness :
    (mkTestDhcpMsg 3 [2, 0, 0, 0, 0, 1] 0 [0, 0, 0, 0]).broadcastFlag = false ∧
    (mkTestDhcpMsg 3 [2, 0, 0, 0, 0, 1] 0 [0, 0, 0, 0]).ciaddrIsZero = true ∧
    ((mkReply testSrv (mkTestDhcpMsg 3 [2, 0, 0, 0, 0, 1] 0 [0, 0, 0, 0]) 3 5 0).destIp
        = 4294967295 ∧
      (mkReply testSrv (mkTestDhcpMsg 3 [2, 0, 0, 0, 0, 1] 0 [0, 0, 0, 0]) 3 5 0).destPort
        = 68) :=
  ⟨by decide, by decide,
    dhcp_reply_always_broadcast testSrv 1000 300
      (mkTestDhcpMsg 3 [2, 0, 0, 0, 0, 1] 0 [0, 0, 0, 0])
      (mkReply testSrv (mkTestDhcpMsg 3 [2, 0, 0, 0, 0, 1] 0 [0, 0, 0, 0]) 3 5 0) (by decide)⟩

/-- C2: the options actually emitted after the Message-Type option.  The
structure, ordering and terminator match the claim, and Subnet-Mask, Router
and DNS carry 255.255.255.0 / 192.168.4.1 / 192.168.4.1; but the
Server-Identifier value is the byte reversal `[1, 4, 168, 192]` of
192.168.4.1 (the raw `ip4_addr_get_u32` value pushed through the big-endian
`opt_write_u32`), and the Lease-Time value is `[128, 81, 1, 0]` — the
little-endian image of 86400 (`lwip_htonl` composed with the big-endian
`opt_write_u32`), not the big-endian `[0, 1, 81, 128]`.  Shown on the S1
DISCOVER (OFFER) and the matching REQUEST (ACK). -/
theorem dhcp_reply_option_bytes :
    ((dhcp_server_process testSrv 1000 300
        (mkTestDhcpMsg 1 [2, 0, 0, 0, 0, 1] 0 [0, 0, 0, 0])).2.map DhcpReply.options =
      some [53, 1, 2, 54, 4, 1, 4, 168, 192, 1, 4, 255, 255, 255, 0,
            3, 4, 192, 168, 4, 1, 6, 4, 192, 168, 4, 1,
            51, 4, 128, 81, 1, 0, 255]) ∧
    ((dhcp_server_process testSrv 1000 300
        (mkTestDhcpMsg 1 [2, 0, 0, 0, 0, 1] 0 [0, 0, 0, 0])).2.map DhcpReply.yiaddr =
      some [192, 168, 4, 16]) ∧
    ((dhcp_server_process testSrv 1000 300
        (mkTestDhcpMsg 3 [2, 0, 0, 0, 0, 1] 0 [0, 0, 0, 0])).2.map DhcpReply.options =
      some [53, 1, 5, 54, 4, 1, 4, 168, 192, 1, 4, 255, 255, 255, 0,
            3, 4, 192, 168, 4, 1, 6, 4, 192, 168, 4, 1,
            51, 4, 128, 81, 1, 0, 255]) ∧
    ([1, 4, 168, 192] : List Nat) ≠ [192, 168, 4, 1] ∧
    ([128, 81, 1, 0] : List Nat) ≠ [0, 1, 81, 128] := by
  refine ⟨?_, ?_, ?_, by decide, by decide⟩ <;> decide

/-! ## Lease-table invariant machinery -/

/-- From a `Forall₂` relation, every member of the right list is related to
some member of the left list. -/
theorem forall₂_exists_mem_left {α β : Type} {R : α → β → Prop} :
    ∀ {t : List α} {t' : List β}, List.Forall₂ R t t' → ∀ b ∈ t', ∃ a ∈ t, R a b := by
  intro t t' h
  induction h with
  | nil => simp
  | cons hab _ ih =>
    intro b hb
    rcases List.mem_cons.1 hb with rfl | hb2
    · exact ⟨_, List.mem_cons_self _ _, hab⟩
    · rcases ih b hb2 with ⟨a, ha, hR⟩
      exact ⟨a, List.mem_cons_of_mem _ ha, hR⟩

/-- Pairwise lease-distinctness transfers along any slotwise transformation
that either preserves a slot's MAC or nulls it. -/
theorem pairwise_transfer {W : dhcp_server_lease_t → dhcp_server_lease_t → Prop}
    (hW : ∀ a b, W a b → b.mac = a.mac ∨ macIsNull b.mac = true) :
    ∀ {t t' : List dhcp_server_lease_t},
      List.Forall₂ W t t' → t.Pairwise dhcpLeaseRel → t'.Pairwise dhcpLeaseRel := by
  intro t t' h
  induction h with
  | nil => intro _; exact List.Pairwise.nil
  | cons hab htail ih =>
    intro hp
    rcases List.pairwise_cons.1 hp with ⟨hhead, htp⟩
    refine List.pairwise_cons.2 ⟨?_, ih htp⟩
    intro c' hc'
    rcases forall₂_exists_mem_left htail c' hc' with ⟨c, hc, hWc⟩
    unfold dhcpLeaseRel
    rcases hW _ _ hab with hbm | hbn
    · rcases hW _ _ hWc with hcm | hcn
      · have hr := hhead c hc
        unfold dhcpLeaseRel at hr
        rw [hbm, hcm]
        exact hr
      · exact Or.inr (Or.inl hcn)
    · exact Or.inl hbn

/-- The DISCOVER scan leaves each slot either unchanged or, when the slot
held a non-null MAC whose lease had expired, resets it to the free slot. -/
theorem discoverScan_frame (chaddr : List Nat) (now16 : Nat) :
    ∀ t : List dhcp_server_lease_t,
      List.Forall₂
        (fun a b => b = a ∨
          (macIsNull a.mac = false ∧ leaseExpiredDiscover now16 a = true ∧
            b = (⟨zeroMac, 0⟩ : dhcp_server_lease_t)))
        t (discoverScan chaddr now16 t).2.2 := by
  intro t
  induction t with
  | nil => simp [discoverScan]
  | cons l rest ih =>
    by_cases h1 : l.mac = chaddr
    · simp only [discoverScan, h1, if_true]
      exact List.forall₂_same.2 (fun x _ => Or.inl rfl)
    · by_cases h2 : macIsNull l.mac = true
      · simp only [discoverScan, h1, h2, if_false, if_true]
        exact List.Forall₂.cons (Or.inl rfl) ih
      · by_cases h3 : leaseExpiredDiscover now16 l = true
        · simp only [discoverScan, h1, h2, h3, if_false, if_true]
          exact List.Forall₂.cons
            (Or.inr ⟨Bool.not_eq_true _ ▸ (by simpa using h2), h3, rfl⟩) ih
        · simp only [discoverScan, h1, h2, h3, if_false]
          exact List.Forall₂.cons (Or.inl rfl) ih

/-- The DISCOVER scan preserves pairwise lease distinctness. -/
theorem discoverScan_pairwise (chaddr : List Nat) (now16 : Nat)
    (t : List dhcp_server_lease_t) (hp : t.Pairwise dhcpLeaseRel) :
    ((discoverScan chaddr now16 t).2.2).Pairwise dhcpLeaseRel := by
  refine pairwise_transfer ?_ (discoverScan_frame chaddr now16 t) hp
  intro a b hab
  rcases hab with rfl | ⟨_, _, rfl⟩
  · exact Or.inl rfl
  · exact Or.inr (by decide)

/-- When REQUEST scan 1 finds no slot, no slot's MAC equals the client's. -/
theorem requestFindMac_none (chaddr : List Nat) :
    ∀ t : List dhcp_server_lease_t, requestFindMac chaddr t = none →
      ∀ a ∈ t, a.mac ≠ chaddr := by
  intro t
  induction t with
  | nil => simp
  | cons l rest ih =>
    intro h a ha
    by_cases h1 : l.mac = chaddr
    · simp [requestFindMac, h1] at h
    · rcases List.mem_cons.1 ha with rfl | ha2
      · exact h1
      · refine ih ?_ a ha2
        simpa [requestFindMac, h1, Option.map_eq_none'] using h

/-- Every slot in the table produced by REQUEST scan 2 is an original slot
or carries the freshly written client MAC. -/
theorem requestClaimFree_mem (chaddr : List Nat) (nowMs : Nat) :
    ∀ (t : List dhcp_server_lease_t) (p : Nat × List dhcp_server_lease_t),
      requestClaimFree chaddr nowMs t = some p → ∀ b ∈ p.2, b ∈ t ∨ b.mac = chaddr := by
  intro t
  induction t with
  | nil => simp [requestClaimFree]
  | cons l rest ih =>
    intro p h b hb
    by_cases h1 : l.mac = zeroMac ∨ leaseExpiredRequest nowMs l = true
    · simp only [requestClaimFree, if_pos h1, Option.some.injEq] at h
      subst h
      rcases List.mem_cons.1 hb with rfl | hb2
      · exact Or.inr rfl
      · exact Or.inl (List.mem_cons_of_mem _ hb2)
    · simp only [requestClaimFree, if_neg h1] at h
      cases hx : requestClaimFree chaddr nowMs rest with
      | none => rw [hx] at h; simp at h
      | some q =>
        rw [hx] at h
        simp only [Option.map_some', Option.some.injEq] at h
        subst h
        rcases List.mem_cons.1 hb with rfl | hb2
        · exact Or.inl (List.mem_cons_self _ _)
        · rcases ih q hx b hb2 with hm | hc
          · exact Or.inl (List.mem_cons_of_mem _ hm)
          · exact Or.inr hc

/-- REQUEST scan 2 preserves pairwise lease distinctness, given that scan 1
found no slot holding the client MAC. -/
theorem requestClaimFree_pairwise (chaddr : List Nat) (nowMs : Nat) :
    ∀ (t : List dhcp_server_lease_t) (p : Nat × List dhcp_server_lease_t),
      requestClaimFree chaddr nowMs t = some p →
      (∀ a ∈ t, a.mac ≠ chaddr) → t.Pairwise dhcpLeaseRel →
      p.2.Pairwise dhcpLeaseRel := by
  intro t
  induction t with
  | nil => simp [requestClaimFree]
  | cons l rest ih =>
    intro p h hno hp
    rcases List.pairwise_cons.1 hp with ⟨hhead, htp⟩
    by_cases h1 : l.mac = zeroMac ∨ leaseExpiredRequest nowMs l = true
    · simp only [requestClaimFree, if_pos h1, Option.some.injEq] at h
      subst h
      refine List.pairwise_cons.2 ⟨?_, htp⟩
      intro b hb
      unfold dhcpLeaseRel
      exact Or.inr (Or.inr (fun he =>
        hno b (List.mem_cons_of_mem _ hb) (by simpa using he.symm)))
    · simp only [requestClaimFree, if_neg h1] at h
      cases hx : requestClaimFree chaddr nowMs rest with
      | none => rw [hx] at h; simp at h
      | some q =>
        rw [hx] at h
        simp only [Option.map_some', Option.some.injEq] at h
        subst h
        refine List.pairwise_cons.2 ⟨?_, ih q hx (fun a ha => hno a (List.mem_cons_of_mem _ ha)) htp⟩
        intro b hb
        rcases requestClaimFree_mem chaddr nowMs rest q hx b hb with hm | hc
        · exact hhead b hm
        · unfold dhcpLeaseRel
          refine Or.inr (Or.inr (fun he => ?_))
          exact hno l (List.mem_cons_self _ _) (he.trans hc)

/-- `setExpiry` changes no MAC. -/
theorem setExpiry_forall₂ :
    ∀ (t : List dhcp_server_lease_t) (k e : Nat),
      List.Forall₂ (fun a b => b.mac = a.mac) t (setExpiry t k e) := by
  intro t
  induction t with
  | nil => intro k e; simp [setExpiry]
  | cons l rest ih =>
    intro k e
    cases k with
    | zero => exact List.Forall₂.cons rfl (List.forall₂_same.2 (fun x _ => rfl))
    | succ k' => exact List.Forall₂.cons rfl (ih k' e)

/-- `setExpiry` preserves pairwise lease distinctness. -/
theorem setExpiry_pairwise (t : List dhcp_server_lease_t) (k e : Nat)
    (hp : t.Pairwise dhcpLeaseRel) : (setExpiry t k e).Pairwise dhcpLeaseRel :=
  pairwise_transfer (fun _ _ hab => Or.inl hab) (setExpiry_forall₂ t k e) hp

/-- One `dhcp_server_process` step preserves pairwise lease distinctness. -/
theorem dhcp_step_pairwise (d : dhcp_server_t) (nowMs totLen : Nat) (m : dhcp_msg_t)
    (hp : d.lease.Pairwise dhcpLeaseRel) :
    (dhcp_server_process d nowMs totLen m).1.lease.Pairwise dhcpLeaseRel := by
  unfold dhcp_server_process
  split
  · exact hp
  split
  · exact hp
  split
  · exact hp
  next mt hmt =>
  split
  · dsimp only
    split
    · exact discoverScan_pairwise _ _ _ hp
    · split
      · exact discoverScan_pairwise _ _ _ hp
      · exact discoverScan_pairwise _ _ _ hp
  split
  · split
    · exact setExpiry_pairwise _ _ _ hp
    · next hfind =>
      split
      · next p hclaim =>
        exact setExpiry_pairwise _ _ _
          (requestClaimFree_pairwise _ _ _ _ hclaim (requestFindMac_none _ _ hfind) hp)
      · exact hp
  · exact hp

/-- Processing any datagram sequence preserves pairwise lease
distinctness. -/
theorem dhcpProcessSeq_pairwise (msgs : List (Nat × Nat × dhcp_msg_t)) :
    ∀ d : dhcp_server_t, d.lease.Pairwise dhcpLeaseRel →
      (dhcpProcessSeq d msgs).lease.Pairwise dhcpLeaseRel := by
  induction msgs with
  | nil => intro d hp; exact hp
  | cons x rest ih =>
    intro d hp
    exact ih _ (dhcp_step_pairwise d x.1 x.2.1 x.2.2 hp)

/-- C7: starting from the all-free table of `dhcp_server_init`, after
processing any sequence of DHCP datagrams, no two slots holding a non-null
MAC hold the same MAC. -/
theorem dhcp_lease_uniqueness (ip nm : List Nat) (msgs : List (Nat × Nat × dhcp_msg_t))
    (i j : Nat) (hij : i ≠ j)
    (hi : macIsNull (((dhcpProcessSeq (dhcp_server_init ip nm) msgs).lease.getD i default).mac)
          = false)
    (hj : macIsNull (((dhcpProcessSeq (dhcp_server_init ip nm) msgs).lease.getD j default).mac)
          = false) :
    ((dhcpProcessSeq (dhcp_server_init ip nm) msgs).lease.getD i default).mac ≠
      ((dhcpProcessSeq (dhcp_server_init ip nm) msgs).lease.getD j default).mac := by
  have hp : (dhcpProcessSeq (dhcp_server_init ip nm) msgs).lease.Pairwise dhcpLeaseRel :=
    dhcpProcessSeq_pairwise msgs _
      (show (List.replicate 8 (⟨zeroMac, 0⟩ : dhcp_server_lease_t)).Pairwise dhcpLeaseRel
        by decide)
  set t := (dhcpProcessSeq (dhcp_server_init ip nm) msgs).lease with ht
  by_cases hik : i < t.length
  · by_cases hjk : j < t.length
    · have hidx := List.pairwise_iff_getElem.1 hp
      rcases Nat.lt_or_ge i j with hlt | hge
      · have hr := hidx i j hik hjk hlt
        rw [List.getD_eq_getElem t default hik, List.getD_eq_getElem t default hjk]
        unfold dhcpLeaseRel at hr
        rcases hr with h1 | h2 | h3
        · rw [List.getD_eq_getElem t default hik] at hi
          rw [hi] at h1
          exact absurd h1 (by decide)
        · rw [List.getD_eq_getElem t default hjk] at hj
          rw [hj] at h2
          exact absurd h2 (by decide)
        · exact h3
      · have hlt : j < i := Nat.lt_of_le_of_ne hge (fun he => hij he.symm)
        have hr := hidx j i hjk hik hlt
        rw [List.getD_eq_getElem t default hik, List.getD_eq_getElem t default hjk]
        unfold dhcpLeaseRel at hr
        rcases hr with h1 | h2 | h3
        · rw [List.getD_eq_getElem t default hjk] at hj
          rw [hj] at h1
          exact absurd h1 (by decide)
        · rw [List.getD_eq_getElem t default hik] at hi
          rw [hi] at h2
          exact absurd h2 (by decide)
        · exact h3.symm
    · rw [List.getD_eq_default t default (Nat.le_of_not_lt hjk)] at hj
      exact absurd hj (by decide)
  · rw [List.getD_eq_default t default (Nat.le_of_not_lt hik)] at hi
    exact absurd hi (by decide)

/-- C7 witness: two REQUESTs from distinct MACs commit slots 0 and 1, which
then hold distinct non-null MACs. -/
theorem dhcp_lease_uniqueness_witness :
    ((dhcpProcessSeq (dhcp_server_init gwIpBytes netmaskBytes)
        [(1000, 300, mkTestDhcpMsg 3 [2, 0, 0, 0, 0, 1] 0 [0, 0, 0, 0]),
         (2000, 300, mkTestDhcpMsg 3 [2, 0, 0, 0, 0, 2] 0 [0, 0, 0, 0])]).lease.getD 0
        default).mac ≠
      ((dhcpProcessSeq (dhcp_server_init gwIpBytes netmaskBytes)
        [(1000, 300, mkTestDhcpMsg 3 [2, 0, 0, 0, 0, 1] 0 [0, 0, 0, 0]),
         (2000, 300, mkTestDhcpMsg 3 [2, 0, 0, 0, 0, 2] 0 [0, 0, 0, 0])]).lease.getD 1
        default).mac :=
  dhcp_lease_uniqueness gwIpBytes netmaskBytes
    [(1000, 300, mkTestDhcpMsg 3 [2, 0, 0, 0, 0, 1] 0 [0, 0, 0, 0]),
     (2000, 300, mkTestDhcpMsg 3 [2, 0, 0, 0, 0, 2] 0 [0, 0, 0, 0])]
    0 1 (by decide) (by decide) (by decide)

/-- C8 counterexample: a DISCOVER from MAC `02:00:00:00:00:01` on the fresh
all-free table selects slot 0 (the OFFER carries 192.168.4.16) but writes
nothing: the table is unchanged and slot 0's MAC stays all-zero rather than
becoming the client's MAC. -/
theorem dhcp_discover_no_mac_write :
    (dhcp_server_process testSrv 1000 300 (mkTestDhcpMsg 1 [2, 0, 0, 0, 0, 1] 0 [0, 0, 0, 0])).1
      = testSrv ∧
    ((dhcp_server_process testSrv 1000 300
        (mkTestDhcpMsg 1 [2, 0, 0, 0, 0, 1] 0 [0, 0, 0, 0])).1.lease.getD 0 default).mac
      = zeroMac ∧
    zeroMac ≠ [2, 0, 0, 0, 0, 1] ∧
    ((dhcp_server_process testSrv 1000 300
        (mkTestDhcpMsg 1 [2, 0, 0, 0, 0, 1] 0 [0, 0, 0, 0])).2.map DhcpReply.yiaddr)
      = some [192, 168, 4, 16] := by
  refine ⟨?_, ?_, by decide, ?_⟩ <;> decide

/-- C8 amended: processing one DHCPDISCOVER never writes the client's MAC:
every lease-table slot is either left unchanged or (when it held a non-null
MAC whose lease had expired) reset to the free slot; in particular a slot
that was free stays free. -/
theorem dhcp_discover_frame_effect (d : dhcp_server_t) (nowMs totLen : Nat) (m : dhcp_msg_t)
    (hlen : 240 ≤ totLen) (hck : m.options.take 4 = [99, 130, 83, 99])
    (hmt : extractMsgType (m.options.drop 4) = some 1) :
    List.Forall₂
      (fun a b => b = a ∨
        (macIsNull a.mac = false ∧ leaseExpiredDiscover (u32of nowMs / 65536) a = true ∧
          b = (⟨zeroMac, 0⟩ : dhcp_server_lease_t)))
      d.lease (dhcp_server_process d nowMs totLen m).1.lease := by
  unfold dhcp_server_process
  rw [if_neg (Nat.not_lt.2 hlen), if_neg (by simp [hck]), hmt]
  split
  · next heq => exact absurd heq (by simp)
  · next mt heq =>
    have hmt1 : mt = 1 := by injection heq with h2; exact h2.symm
    subst hmt1
    rw [if_pos rfl]
    dsimp only
    split
    · exact discoverScan_frame _ _ _
    · split
      · exact discoverScan_frame _ _ _
      · exact discoverScan_frame _ _ _

/-- REQUEST scan 1 returns the first index whose MAC equals the client's. -/
theorem requestFindMac_first (v : List Nat) :
    ∀ (t : List dhcp_server_lease_t) (k : Nat), k < t.length →
      (t.getD k default).mac = v → (∀ j, j < k → (t.getD j default).mac ≠ v) →
      requestFindMac v t = some k := by
  intro t
  induction t with
  | nil => intro k hk; exact absurd hk (by simp)
  | cons l rest ih =>
    intro k hk hv hfirst
    cases k with
    | zero =>
      simp only [List.getD_cons_zero] at hv
      simp [requestFindMac, hv]
    | succ k' =>
      have hl : l.mac ≠ v := by
        have := hfirst 0 (Nat.succ_pos _)
        simpa using this
      simp only [requestFindMac, if_neg hl]
      rw [ih k' (by simpa using hk) (by simpa using hv)
        (fun j hj => by simpa using hfirst (j + 1) (Nat.succ_lt_succ hj))]
      rfl

/-- `setExpiry` rewrites exactly the addressed slot's expiry. -/
theorem setExpiry_getD :
    ∀ (t : List dhcp_server_lease_t) (k e : Nat), k < t.length →
      (setExpiry t k e).getD k default = { t.getD k default with expiry := e } := by
  intro t
  induction t with
  | nil => intro k e hk; exact absurd hk (by simp)
  | cons l rest ih =>
    intro k e hk
    cases k with
    | zero => simp [setExpiry]
    | succ k' =>
      simp only [setExpiry, List.getD_cons_succ]
      exact ih k' e (by simpa using hk)

/-- `setExpiry` does not affect which slot REQUEST scan 1 selects. -/
theorem requestFindMac_setExpiry (v : List Nat) :
    ∀ (t : List dhcp_server_lease_t) (k e : Nat),
      requestFindMac v (setExpiry t k e) = requestFindMac v t := by
  intro t
  induction t with
  | nil => intro k e; rfl
  | cons l rest ih =>
    intro k e
    cases k with
    | zero => simp [setExpiry, requestFindMac]
    | succ k' => simp [setExpiry, requestFindMac, ih k' e]

/-- C10: a valid DHCPREQUEST with an all-zero `chaddr`, arriving when slot
`k` is the first slot whose MAC is all-zero, is answered with an ACK
assigning that slot's IP (last octet `16 + k`); the slot's expiry is
refreshed to `(now + 86400000) >> 16`, its MAC stays all-zero (so it is
still free for any later DISCOVER or REQUEST scan, and a later zero-`chaddr`
REQUEST selects the same slot). -/
theorem dhcp_request_zero_chaddr (d : dhcp_server_t) (nowMs totLen : Nat) (m : dhcp_msg_t)
    (k : Nat)
    (hlen : 240 ≤ totLen) (hck : m.options.take 4 = [99, 130, 83, 99])
    (hmt : extractMsgType (m.options.drop 4) = some 3)
    (hch : m.clientMac = zeroMac)
    (hk : k < d.lease.length)
    (hzero : (d.lease.getD k default).mac = zeroMac)
    (hfirst : ∀ j, j < k → (d.lease.getD j default).mac ≠ zeroMac) :
    (dhcp_server_process d nowMs totLen m).2 = some (mkReply d m 3 5 k) ∧
    (mkReply d m 3 5 k).msgType = 5 ∧
    (mkReply d m 3 5 k).yiaddr =
      [d.ip.getD 0 0, d.ip.getD 1 0, d.ip.getD 2 0, (16 + k) % 256] ∧
    (dhcp_server_process d nowMs totLen m).1.lease =
      setExpiry d.lease k (u32of (u32of nowMs + 86400000) / 65536) ∧
    ((dhcp_server_process d nowMs totLen m).1.lease.getD k default).mac = zeroMac ∧
    macIsNull ((dhcp_server_process d nowMs totLen m).1.lease.getD k default).mac = true ∧
    ((dhcp_server_process d nowMs totLen m).1.lease.getD k default).expiry =
      u32of (u32of nowMs + 86400000) / 65536 ∧
    requestFindMac zeroMac (dhcp_server_process d nowMs totLen m).1.lease = some k := by
  have hfind : requestFindMac m.clientMac d.lease = some k := by
    rw [hch]
    exact requestFindMac_first zeroMac d.lease k hk hzero hfirst
  have hred : dhcp_server_process d nowMs totLen m =
      ({ d with lease := setExpiry d.lease k (u32of (u32of nowMs + 86400000) / 65536) },
        some (mkReply d m 3 5 k)) := by
    unfold dhcp_server_process
    rw [if_neg (Nat.not_lt.2 hlen), if_neg (by simp [hck]), hmt]
    dsimp only
    rw [if_neg (show ¬(3 : Nat) = 1 by decide), if_pos (show (3 : Nat) = 3 from rfl), hfind]
  rw [hred]
  have hgd := setExpiry_getD d.lease k (u32of (u32of nowMs + 86400000) / 65536) hk
  have hmac : ((setExpiry d.lease k (u32of (u32of nowMs + 86400000) / 65536)).getD k
      default).mac = zeroMac := by
    rw [hgd]; exact hzero
  refine ⟨rfl, rfl, rfl, rfl, hmac, ?_, ?_, ?_⟩
  · rw [hmac]; decide
  · rw [hgd]
  · rw [requestFindMac_setExpiry]
    rw [← hch]
    exact hfind

/-- C10 witness: zero-`chaddr` REQUEST against a server whose slot 0 is
occupied and slot 1 is the first free slot. -/
theorem dhcp_request_zero_chaddr_witness :
    (240 ≤ 300) ∧
    (dhcp_server_process
        { ip := gwIpBytes, nm := netmaskBytes,
          lease := [⟨[2, 0, 0, 0, 0, 1], 5⟩, ⟨zeroMac, 0⟩, ⟨zeroMac, 0⟩, ⟨zeroMac, 0⟩,
                    ⟨zeroMac, 0⟩, ⟨zeroMac, 0⟩, ⟨zeroMac, 0⟩, ⟨zeroMac, 0⟩] }
        1000 300 (mkTestDhcpMsg 3 [0, 0, 0, 0, 0, 0] 0 [0, 0, 0, 0])).2 =
      some (mkReply
        { ip := gwIpBytes, nm := netmaskBytes,
          lease := [⟨[2, 0, 0, 0, 0, 1], 5⟩, ⟨zeroMac, 0⟩, ⟨zeroMac, 0⟩, ⟨zeroMac, 0⟩,
                    ⟨zeroMac, 0⟩, ⟨zeroMac, 0⟩, ⟨zeroMac, 0⟩, ⟨zeroMac, 0⟩] }
        (mkTestDhcpMsg 3 [0, 0, 0, 0, 0, 0] 0 [0, 0, 0, 0]) 3 5 1) :=
  ⟨by decide,
    (dhcp_request_zero_chaddr
      { ip := gwIpBytes, nm := netmaskBytes,
        lease := [⟨[2, 0, 0, 0, 0, 1], 5⟩, ⟨zeroMac, 0⟩, ⟨zeroMac, 0⟩, ⟨zeroMac, 0⟩,
                  ⟨zeroMac, 0⟩, ⟨zeroMac, 0⟩, ⟨zeroMac, 0⟩, ⟨zeroMac, 0⟩] }
      1000 300 (mkTestDhcpMsg 3 [0, 0, 0, 0, 0, 0] 0 [0, 0, 0, 0]) 1
      (by decide) (by decide) (by decide) (by decide) (by decide) (by decide)
      (by intro j hj; interval_cases j; decide)).1⟩

/-- C8 amended witness: the frame property instantiated on the S1 DISCOVER
against the fresh server. -/
theorem dhcp_discover_frame_effect_witness :
    List.Forall₂
      (fun a b => b = a ∨
        (macIsNull a.mac = false ∧ leaseExpiredDiscover (u32of 1000 / 65536) a = true ∧
          b = (⟨zeroMac, 0⟩ : dhcp_server_lease_t)))
      testSrv.lease
      (dhcp_server_process testSrv 1000 300
        (mkTestDhcpMsg 1 [2, 0, 0, 0, 0, 1] 0 [0, 0, 0, 0])).1.lease :=
  dhcp_discover_frame_effect testSrv 1000 300 (mkTestDhcpMsg 1 [2, 0, 0, 0, 0, 1] 0 [0, 0, 0, 0])
    (by decide) (by decide) (by decide)

/-! ## DNS response machinery -/

/-- Indexing past an initial segment of an append. -/
theorem getD_append_len (l₁ l₂ : List Nat) (k : Nat) :
    (l₁ ++ l₂).getD (l₁.length + k) 0 = l₂.getD k 0 := by
  induction l₁ with
  | nil => simp
  | cons a l ih =>
    simpa [List.length_cons, Nat.succ_add] using ih

/-- A wire-encoded name is strictly longer than its label count. -/
theorem nameBytes_length_lt (labels : List (List Nat)) :
    labels.length < (nameBytes labels).length := by
  induction labels with
  | nil => simp [nameBytes]
  | cons lab rest ih =>
    simp only [nameBytes, List.length_cons, List.length_append]
    omega

/-- The question-name walk consumes exactly a well-formed wire name
(labels of 1..63 bytes, zero terminator) placed after any 12-byte header. -/
theorem walkName_nameBytes :
    ∀ (labels : List (List Nat)) (pre post : List Nat) (fuel : Nat),
      (∀ lab ∈ labels, 0 < lab.length ∧ lab.length ≤ 63) →
      labels.length < fuel →
      walkName (pre ++ nameBytes labels ++ post) fuel pre.length =
        some (pre.length + (nameBytes labels).length) := by
  intro labels
  induction labels with
  | nil =>
    intro pre post fuel _ hf
    cases fuel with
    | zero => omega
    | succ f =>
      have hlen : pre.length < (pre ++ nameBytes [] ++ post).length := by
        simp [nameBytes]
      have hget : (pre ++ nameBytes [] ++ post).getD pre.length 0 = 0 := by
        rw [List.append_assoc]
        simpa [nameBytes] using getD_append_len pre (nameBytes [] ++ post) 0
      unfold walkName
      rw [if_pos hlen, hget, if_pos rfl]
      rfl
  | cons lab rest ih =>
    intro pre post fuel hlab hf
    cases fuel with
    | zero => omega
    | succ f =>
      have hlab0 := hlab lab (List.mem_cons_self _ _)
      have hlen : pre.length < (pre ++ nameBytes (lab :: rest) ++ post).length := by
        simp only [nameBytes, List.length_append, List.length_cons]
        omega
      have hget : (pre ++ nameBytes (lab :: rest) ++ post).getD pre.length 0 = lab.length := by
        rw [List.append_assoc]
        simpa [nameBytes] using getD_append_len pre (nameBytes (lab :: rest) ++ post) 0
      have hassoc : pre ++ nameBytes (lab :: rest) ++ post =
          (pre ++ (lab.length :: lab)) ++ nameBytes rest ++ post := by
        simp [nameBytes, List.append_assoc]
      have hplen : (pre ++ (lab.length :: lab)).length = pre.length + 1 + lab.length := by
        simp only [List.length_append, List.length_cons]
        omega
      have hrec := ih (pre ++ (lab.length :: lab)) post f
        (fun l hl => hlab l (List.mem_cons_of_mem _ hl)) (by simpa using Nat.lt_of_succ_lt_succ hf)
      unfold walkName
      rw [if_pos hlen, hget, if_neg (by omega), if_neg (by omega)]
      rw [show pre.length + 1 + lab.length = (pre ++ (lab.length :: lab)).length from by
        rw [hplen]]
      rw [hassoc, hrec, hplen]
      have : (nameBytes (lab :: rest)).length = 1 + lab.length + (nameBytes rest).length := by
        simp [nameBytes]
        omega
      rw [this]
      congr 1
      omega

/-- C3: for every well-formed standard A query — QR clear, opcode 0,
qdcount at least 1, labels of at most 63 bytes, total name of at most 255
bytes, qtype = A, qclass = IN — the DNS server answers to the query's source
address and port, preserving the transaction id, echoing the question bytes,
setting the flags to exactly QR|AA|RA (`0x84 0x80`), the counts to
1/1/0/0, and appending the single answer `C0 0C / type 1 / class 1 /
TTL 60 / RDLENGTH 4 / RDATA 192.168.4.1`. -/
theorem dns_standard_query_response
    (i0 i1 f0 f1 q0 q1 a0 a1 n0 n1 r0 r1 : Nat)
    (labels : List (List Nat)) (extra : List Nat) (srcIp : List Nat) (srcPort : Nat)
    (hQR : ((256 * f0 + f1) >>> 15) &&& 1 = 0)
    (hOp : ((256 * f0 + f1) >>> 11) &&& 15 = 0)
    (hQd : 1 ≤ 256 * q0 + q1)
    (hlab : ∀ lab ∈ labels, 0 < lab.length ∧ lab.length ≤ 63)
    (hname : (nameBytes labels).length ≤ 255) :
    dns_server_process [192, 168, 4, 1] srcIp srcPort
        ([i0, i1, f0, f1, q0, q1, a0, a1, n0, n1, r0, r1] ++
          (nameBytes labels ++ ([0, 1, 0, 1] ++ extra)))
      = some (([i0, i1, 132, 128, 0, 1, 0, 1, 0, 0, 0, 0] ++
          (nameBytes labels ++ ([0, 1, 0, 1] ++
            [192, 12, 0, 1, 0, 1, 0, 0, 0, 60, 0, 4, 192, 168, 4, 1]))), srcIp, srcPort) := by
  have hnb := nameBytes_length_lt labels
  -- the 300-byte copy keeps the header, the name and qtype/qclass intact
  have hmsg : (([i0, i1, f0, f1, q0, q1, a0, a1, n0, n1, r0, r1] ++
      (nameBytes labels ++ ([0, 1, 0, 1] ++ extra))).take 300) =
      [i0, i1, f0, f1, q0, q1, a0, a1, n0, n1, r0, r1] ++
        (nameBytes labels ++ ([0, 1, 0, 1] ++ extra.take (284 - (nameBytes labels).length))) := by
    rw [List.take_append_eq_append_take, List.take_append_eq_append_take,
      List.take_append_eq_append_take]
    rw [List.take_of_length_le (l := [i0, i1, f0, f1, q0, q1, a0, a1, n0, n1, r0, r1])
      (by simp), List.take_of_length_le (l := nameBytes labels) (by simp; omega),
      List.take_of_length_le (l := [0, 1, 0, 1]) (by simp; omega)]
    congr 2
    simp
    omega
  unfold dns_server_process
  rw [hmsg]
  have hL : ([i0, i1, f0, f1, q0, q1, a0, a1, n0, n1, r0, r1] ++
      (nameBytes labels ++ ([0, 1, 0, 1] ++
        extra.take (284 - (nameBytes labels).length)))).length =
      16 + (nameBytes labels).length + (extra.take (284 - (nameBytes labels).length)).length := by
    simp
    omega
  rw [if_neg (by omega)]
  have hg2 : ([i0, i1, f0, f1, q0, q1, a0, a1, n0, n1, r0, r1] ++
      (nameBytes labels ++ ([0, 1, 0, 1] ++
        extra.take (284 - (nameBytes labels).length)))).getD 2 0 = f0 := rfl
  have hg3 : ([i0, i1, f0, f1, q0, q1, a0, a1, n0, n1, r0, r1] ++
      (nameBytes labels ++ ([0, 1, 0, 1] ++
        extra.take (284 - (nameBytes labels).length)))).getD 3 0 = f1 := rfl
  have hg4 : ([i0, i1, f0, f1, q0, q1, a0, a1, n0, n1, r0, r1] ++
      (nameBytes labels ++ ([0, 1, 0, 1] ++
        extra.take (284 - (nameBytes labels).length)))).getD 4 0 = q0 := rfl
  have hg5 : ([i0, i1, f0, f1, q0, q1, a0, a1, n0, n1, r0, r1] ++
      (nameBytes labels ++ ([0, 1, 0, 1] ++
        extra.take (284 - (nameBytes labels).length)))).getD 5 0 = q1 := rfl
  rw [hg2, hg3, hg4, hg5]
  rw [if_neg (by simp [hQR]), if_neg (by simp [hOp]), if_neg (by omega)]
  have hwalk := walkName_nameBytes labels
    [i0, i1, f0, f1, q0, q1, a0, a1, n0, n1, r0, r1]
    ([0, 1, 0, 1] ++ extra.take (284 - (nameBytes labels).length))
    (([i0, i1, f0, f1, q0, q1, a0, a1, n0, n1, r0, r1] ++
      (nameBytes labels ++ ([0, 1, 0, 1] ++
        extra.take (284 - (nameBytes labels).length)))).length)
    hlab (by rw [hL]; omega)
  rw [show [i0, i1, f0, f1, q0, q1, a0, a1, n0, n1, r0, r1] ++
      (nameBytes labels ++ ([0, 1, 0, 1] ++ extra.take (284 - (nameBytes labels).length))) =
      [i0, i1, f0, f1, q0, q1, a0, a1, n0, n1, r0, r1] ++ nameBytes labels ++
        ([0, 1, 0, 1] ++ extra.take (284 - (nameBytes labels).length)) from by
    simp [List.append_assoc]] at hwalk ⊢
  rw [show ([i0, i1, f0, f1, q0, q1, a0, a1, n0, n1, r0, r1] : List Nat).length = 12 from rfl]
    at hwalk
  rw [hwalk]
  dsimp only
  rw [if_neg (by omega)]
  simp only [Option.some.injEq, Prod.mk.injEq, and_true]
  -- reduce take 2 / drop 12 on the explicit header
  have ht2 : ∀ x : List Nat,
      List.take 2 ([i0, i1, f0, f1, q0, q1, a0, a1, n0, n1, r0, r1] ++ x) = [i0, i1] :=
    fun _ => rfl
  have hd12 : ∀ x : List Nat,
      List.drop 12 ([i0, i1, f0, f1, q0, q1, a0, a1, n0, n1, r0, r1] ++ x) = x :=
    fun _ => rfl
  rw [List.append_assoc [i0, i1, f0, f1, q0, q1, a0, a1, n0, n1, r0, r1] (nameBytes labels)]
  rw [ht2, hd12]
  have hfront : ([i0, i1] ++ [132, 128, 0, 1, 0, 1, 0, 0, 0, 0] ++
      (nameBytes labels ++ ([0, 1, 0, 1] ++ extra.take (284 - (nameBytes labels).length)))) =
      ([i0, i1, 132, 128, 0, 1, 0, 1, 0, 0, 0, 0] ++ nameBytes labels ++ [0, 1, 0, 1]) ++
        extra.take (284 - (nameBytes labels).length) := by
    simp [List.append_assoc]
  rw [hfront]
  rw [List.take_append_eq_append_take]
  rw [List.take_of_length_le
    (l := [i0, i1, 132, 128, 0, 1, 0, 1, 0, 0, 0, 0] ++ nameBytes labels ++ [0, 1, 0, 1])
    (by simp; omega)]
  have hlen16 : ([i0, i1, 132, 128, 0, 1, 0, 1, 0, 0, 0, 0] ++ nameBytes labels ++
      [0, 1, 0, 1]).length = 16 + (nameBytes labels).length := by
    simp only [List.length_append, List.length_cons, List.length_nil]
    omega
  rw [hlen16]
  have hz : 12 + (nameBytes labels).length + 4 - (16 + (nameBytes labels).length) = 0 := by
    omega
  rw [hz, List.take_zero]
  simp [List.append_assoc]

/-! ## HTTP and alarm machinery -/

/-- `%s` token extraction: the maximal non-whitespace run at the front of
`tok ++ rest` is `tok` when `tok` is all non-whitespace and `rest` starts
with whitespace (or is empty). -/
theorem takeWhile_token (tok rest : List Char) (htok : ∀ c ∈ tok, cIsSpace c = false)
    (hrest : ∀ c ∈ rest.take 1, cIsSpace c = true) :
    (tok ++ rest).takeWhile (fun c => !cIsSpace c) = tok := by
  induction tok with
  | nil =>
    cases rest with
    | nil => rfl
    | cons r rs =>
      have hr := hrest r (by simp)
      simp [List.takeWhile_cons, hr]
  | cons c t ih =>
    have hc := htok c (List.mem_cons_self _ _)
    simp only [List.cons_append, List.takeWhile_cons, hc, Bool.not_false, if_true]
    rw [ih (fun x hx => htok x (List.mem_cons_of_mem _ hx))]

/-- `sscanf(params, "alarm=%s", ...)` on a query of the shape
`alarm=<token><whitespace-or-end>` yields exactly that token. -/
theorem sscanfAlarmToken_token (tok rest : List Char)
    (htok0 : tok ≠ []) (htok : ∀ c ∈ tok, cIsSpace c = false)
    (hrest : ∀ c ∈ rest.take 1, cIsSpace c = true) :
    sscanfAlarmToken ("alarm=".data ++ (tok ++ rest)) = some tok := by
  unfold sscanfAlarmToken
  rw [show (6 : Nat) = ("alarm=".data).length from rfl, List.take_left, List.drop_left]
  rw [if_pos rfl]
  have hdw : (tok ++ rest).dropWhile (fun c => cIsSpace c) = tok ++ rest := by
    cases tok with
    | nil => exact absurd rfl htok0
    | cons c t => simp [List.dropWhile_cons, htok c (List.mem_cons_self _ _)]
  rw [hdw, takeWhile_token tok rest htok hrest, if_neg htok0]

set_option maxRecDepth 8192 in
/-- One `GET /?alarm=on` request: the alarm ends active (turned on exactly
when it was inactive, with the OLED update and green-LED write as the only
effects), and the response is the 200 page for the active state. -/
theorem recv_alarm_on (s : AlarmState) (n : Nat) :
    tcp_server_recv ("192.168.4.1".data) n s ("GET /?alarm=on HTTP/1.1\r\n\r\n".data) =
      ((if s.s_alarm_active then s else ⟨true, false, n⟩),
        (if s.s_alarm_active then [] else
          [HwEffect.oled_display_update_status true, HwEffect.gpio_put LED_GREEN_GPIO false]),
        RecvOutcome.reply (HTTP_RESPONSE_HEADERS 200 (pageBody true).length) (pageBody true)) := by
  obtain ⟨a, tg, lu⟩ := s
  have hparse : parseRequest ("GET /?alarm=on HTTP/1.1\r\n\r\n".data) =
      some (("/".data), some ("alarm=on".data)) := by decide
  have htok : sscanfAlarmToken ("alarm=on".data) = some ("on".data) := by decide
  have hlen : (pageBody true).length = 1025 := by decide
  cases a
  · have hg : http_generate_page_content (some ("alarm=on".data)) n ⟨false, tg, lu⟩ =
        (⟨true, false, n⟩, pageBody true,
          [HwEffect.oled_display_update_status true, HwEffect.gpio_put LED_GREEN_GPIO false]) := by
      unfold http_generate_page_content
      dsimp only
      rw [htok]
      simp [alarm_control_set_active]
    unfold tcp_server_recv
    rw [hparse]
    dsimp only
    rw [if_pos rfl, hg]
    dsimp only
    rw [hlen, if_neg (by omega), if_neg (by decide)]
    simp [hlen]
  · have hg : http_generate_page_content (some ("alarm=on".data)) n ⟨true, tg, lu⟩ =
        (⟨true, tg, lu⟩, pageBody true, []) := by
      unfold http_generate_page_content
      dsimp only
      rw [htok]
      simp [alarm_control_set_active]
    unfold tcp_server_recv
    rw [hparse]
    dsimp only
    rw [if_pos rfl, hg]
    dsimp only
    rw [hlen, if_neg (by omega), if_neg (by decide)]
    simp [hlen]

/-- C4 counterexample: on `GET /favicon.ico HTTP/1.1\r\n\r\n` the server
responds with the 302 redirect whose line endings are bare `\n`, which
differs from the CRLF byte string the claim asserts. -/
theorem http_redirect_lf_bytes :
    (tcp_server_recv ("192.168.4.1".data) 0 ⟨false, false, 0⟩
        ("GET /favicon.ico HTTP/1.1\r\n\r\n".data)).2.2 =
      RecvOutcome.reply ("HTTP/1.1 302 Redirect\nLocation: http://192.168.4.1/\n\n".data) [] ∧
    ("HTTP/1.1 302 Redirect\nLocation: http://192.168.4.1/\n\n".data) ≠
      ("HTTP/1.1 302 Redirect\r\nLocation: http://192.168.4.1/\r\n\r\n".data) :=
  ⟨by decide, by decide⟩

/-- C4 amended: for every parsed GET whose path is not `/`, the server
responds with exactly `HTTP/1.1 302 Redirect\nLocation:
http://192.168.4.1/\n\n` (LF line endings, empty body, no state change, no
hardware effects), and the connection closes exactly once the full 53
response bytes are acknowledged. -/
theorem http_redirect_response (req : List Char) (nowUs : Nat) (s : AlarmState)
    (path : List Char) (params : Option (List Char))
    (hparse : parseRequest req = some (path, params)) (hpath : path ≠ ("/".data)) :
    tcp_server_recv ("192.168.4.1".data) nowUs s req =
      (s, [], RecvOutcome.reply
        ("HTTP/1.1 302 Redirect\nLocation: http://192.168.4.1/\n\n".data) []) ∧
    (∀ acked : Nat,
      tcp_server_sent_closes
        (("HTTP/1.1 302 Redirect\nLocation: http://192.168.4.1/\n\n".data).length) 0 acked
        = true ↔ 53 ≤ acked) := by
  constructor
  · unfold tcp_server_recv
    rw [hparse]
    dsimp only
    rw [if_neg hpath]
    rw [if_neg (by decide)]
    rw [show HTTP_RESPONSE_REDIRECT_TO_ROOT ("192.168.4.1".data) =
        ("HTTP/1.1 302 Redirect\nLocation: http://192.168.4.1/\n\n".data) from by decide]
  · intro acked
    have hL : (("HTTP/1.1 302 Redirect\nLocation: http://192.168.4.1/\n\n".data).length) = 53 :=
      by decide
    simp [tcp_server_sent_closes, hL]

/-- C4 amended witness: the S5 request `GET /favicon.ico HTTP/1.1`. -/
theorem http_redirect_response_witness :
    tcp_server_recv ("192.168.4.1".data) 0 ⟨false, false, 0⟩
        ("GET /favicon.ico HTTP/1.1\r\n\r\n".data) =
      (⟨false, false, 0⟩, [], RecvOutcome.reply
        ("HTTP/1.1 302 Redirect\nLocation: http://192.168.4.1/\n\n".data) []) :=
  (http_redirect_response ("GET /favicon.ico HTTP/1.1\r\n\r\n".data) 0 ⟨false, false, 0⟩
    ("/favicon.ico".data) none (by decide) (by decide)).1

/-- C5 counterexample: the query `x&alarm=on` contains the substring
`alarm=on`, yet the renderer leaves the alarm inactive, because the command
is parsed with `sscanf("alarm=%s")`, which requires the query to start with
`alarm=`. -/
theorem http_query_substring_ignored :
    hasSubstring ("alarm=on".data) ("x&alarm=on".data) = true ∧
    (http_generate_page_content (some ("x&alarm=on".data)) 0
        ⟨false, false, 0⟩).1.s_alarm_active = false :=
  ⟨by decide, by decide⟩

/-- C5 amended: a query commands the alarm only when it starts with
`alarm=`; the whitespace-delimited token right after it (of at most 3 bytes,
the capacity of the C command buffer) must be exactly `on` (activate) or
exactly `off` (deactivate); any query not of that shape — including one that
merely contains `alarm=on` elsewhere — and an absent query leave the state
unchanged. -/
theorem http_query_command_semantics (s : AlarmState) (nowUs : Nat) :
    (∀ tok rest : List Char,
      tok ≠ [] → tok.length ≤ 3 →
      (∀ c ∈ tok, cIsSpace c = false) →
      (∀ c ∈ rest.take 1, cIsSpace c = true) →
      (http_generate_page_content (some ("alarm=".data ++ (tok ++ rest)))
          nowUs s).1.s_alarm_active =
        (if tok = ("on".data) then true
          else if tok = ("off".data) then false else s.s_alarm_active)) ∧
    (∀ ps : List Char, ps.take 6 ≠ ("alarm=".data) →
      (http_generate_page_content (some ps) nowUs s).1.s_alarm_active = s.s_alarm_active) ∧
    (http_generate_page_content none nowUs s).1.s_alarm_active = s.s_alarm_active := by
  refine ⟨?_, ?_, ?_⟩
  · intro tok rest h0 _hlen htok hrest
    have hs := sscanfAlarmToken_token tok rest h0 htok hrest
    unfold http_generate_page_content
    dsimp only
    rw [hs]
    by_cases hon : tok = ("on".data)
    · cases hsa : s.s_alarm_active <;> simp [hon, hsa, alarm_control_set_active]
    · by_cases hoff : tok = ("off".data)
      · cases hsa : s.s_alarm_active <;> simp [hon, hoff, hsa, alarm_control_set_active]
      · simp [hon, hoff]
  · intro ps hps
    simp [http_generate_page_content, sscanfAlarmToken, hps]
  · simp [http_generate_page_content]

/-- C5 amended witness: `alarm=on` from the inactive state activates. -/
theorem http_query_command_semantics_witness :
    (http_generate_page_content (some ("alarm=".data ++ ("on".data ++ [])))
        0 ⟨false, false, 0⟩).1.s_alarm_active = true := by
  have h := (http_query_command_semantics ⟨false, false, 0⟩ 0).1 ("on".data) []
    (by decide) (by decide) (by decide) (by decide)
  simpa using h

/-- C6: two consecutive `GET /?alarm=on` requests, from any alarm state:
the first leaves the alarm active; the second changes nothing (state
identical, no OLED / LED / buzzer effects) and its response — headers and
body — is byte-for-byte the first response. -/
theorem http_alarm_on_twice_idempotent (s : AlarmState) (n1 n2 : Nat) :
    (tcp_server_recv ("192.168.4.1".data) n1 s
        ("GET /?alarm=on HTTP/1.1\r\n\r\n".data)).1.s_alarm_active = true ∧
    (tcp_server_recv ("192.168.4.1".data) n2
        (tcp_server_recv ("192.168.4.1".data) n1 s ("GET /?alarm=on HTTP/1.1\r\n\r\n".data)).1
        ("GET /?alarm=on HTTP/1.1\r\n\r\n".data)).1 =
      (tcp_server_recv ("192.168.4.1".data) n1 s
        ("GET /?alarm=on HTTP/1.1\r\n\r\n".data)).1 ∧
    (tcp_server_recv ("192.168.4.1".data) n2
        (tcp_server_recv ("192.168.4.1".data) n1 s ("GET /?alarm=on HTTP/1.1\r\n\r\n".data)).1
        ("GET /?alarm=on HTTP/1.1\r\n\r\n".data)).2.1 = [] ∧
    (tcp_server_recv ("192.168.4.1".data) n2
        (tcp_server_recv ("192.168.4.1".data) n1 s ("GET /?alarm=on HTTP/1.1\r\n\r\n".data)).1
        ("GET /?alarm=on HTTP/1.1\r\n\r\n".data)).2.2 =
      (tcp_server_recv ("192.168.4.1".data) n1 s
        ("GET /?alarm=on HTTP/1.1\r\n\r\n".data)).2.2 := by
  rw [recv_alarm_on s n1, recv_alarm_on _ n2]
  obtain ⟨a, tg, lu⟩ := s
  cases a <;> simp

/-- C9 counterexample: the character `q` (code 113) does not set the
shutdown flag — only `d`/`D` do in `key_pressed_func`. -/
theorem key_q_no_shutdown :
    key_pressed_func (Int.ofNat (Char.toNat ('q'))) false = false ∧
    Char.toNat ('q') = 113 :=
  ⟨by decide, by decide⟩

/-- C9 amended: the shutdown flag after `key_pressed_func` is set exactly
when it was already set or the key read is `'d'` (100) or `'D'` (68); every
other character — `'q'` and `'Q'` included — leaves it clear. -/
theorem key_pressed_shutdown_semantics (key : Int) (complete : Bool) :
    (key_pressed_func key complete = true ↔
      (complete = true ∨ key = 100 ∨ key = 68)) ∧
    Char.toNat ('d') = 100 ∧ Char.toNat ('D') = 68 := by
  refine ⟨?_, by decide, by decide⟩
  cases complete
  · by_cases hk : key = 100 ∨ key = 68
    · simp [key_pressed_func, hk]
    · simp [key_pressed_func, hk]
  · simp [key_pressed_func]

/-- C3 witness: the S4 query for `www.example.com`, id `0x12 0x34`,
flags `0x01 0x00`, qdcount 1. -/
theorem dns_standard_query_response_witness :
    dns_server_process [192, 168, 4, 1] [10, 0, 0, 5] 33333
        ([18, 52, 1, 0, 0, 1, 0, 0, 0, 0, 0, 0] ++
          (nameBytes [[119, 119, 119], [101, 120, 97, 109, 112, 108, 101], [99, 111, 109]] ++
            ([0, 1, 0, 1] ++ [])))
      = some (([18, 52, 132, 128, 0, 1, 0, 1, 0, 0, 0, 0] ++
          (nameBytes [[119, 119, 119], [101, 120, 97, 109, 112, 108, 101], [99, 111, 109]] ++
            ([0, 1, 0, 1] ++
              [192, 12, 0, 1, 0, 1, 0, 0, 0, 60, 0, 4, 192, 168, 4, 1]))),
          [10, 0, 0, 5], 33333) :=
  dns_standard_query_response 18 52 1 0 0 1 0 0 0 0 0 0
    [[119, 119, 119], [101, 120, 97, 109, 112, 108, 101], [99, 111, 109]] [] [10, 0, 0, 5] 33333
    (by decide) (by decide) (by decide) (by decide) (by decide)

end Embarcatech
